import Mathlib

/-!
Shallow embedding of the buffered log-delivery pipeline of hsdfat/go-zlog
(src/sink/buffer.go and src/sink/sink.go), together with theorems settling
the frozen claims about it.

Modelling conventions:
* `LogEntry` values are opaque to the pipeline (it only moves pointers
  around), so entries are modelled as natural-number identifiers.
* Go `uint64` counters (`sentCount`, `droppedCount`) wrap modulo `2^64`;
  every increment in the model is taken `% U64` exactly as Go arithmetic
  does.
* Go `int`/`time.Duration` configuration fields are modelled as `Nat`
  (negative or `2^63`-scale configurations are outside every claim's
  scope; Go diverges on `MaxBatchSize = 0`, which the fuelled chunking
  below makes explicit via hypotheses where it matters).
* Effects of the underlying transport and of the `select` in the retry
  loop are supplied by an oracle `Env`: `attemptResult b n` is the error
  result of `sink.WriteBatch` for batch `b` on attempt number `n`
  (`none` = success), and `wait n` tells which arm of the `select` fires
  while waiting before attempt `n` (`timer`, the caller context's
  cancellation, or the pipeline's `stopChan`).
-/

/-- One more than the largest value a Go `uint64` can hold. -/
def U64 : Nat := 2 ^ 64

/-- Log entries are opaque to the pipeline; model them as identifiers. -/
abbrev Entry := Nat

/-- Embeds `Config` from src/sink/sink.go.  Durations are in nanoseconds. -/
structure Config where
  serviceName : String
  instanceID : String
  environment : String
  bufferSize : Nat
  flushInterval : Nat
  maxBatchSize : Nat
  maxRetries : Nat
  retryInterval : Nat
  retryTimeout : Nat
  connTimeout : Nat
  writeTimeout : Nat
  workerPoolSize : Nat
  dropOnFull : Bool
  asyncWrite : Bool
  deriving Repr, DecidableEq

/-- Embeds `DefaultConfig` from src/sink/sink.go. -/
def DefaultConfig : Config where
  serviceName := "unknown"
  instanceID := ""
  environment := "development"
  bufferSize := 1000
  flushInterval := 5000000000
  maxBatchSize := 100
  maxRetries := 3
  retryInterval := 1000000000
  retryTimeout := 30000000000
  connTimeout := 10000000000
  writeTimeout := 5000000000
  workerPoolSize := 2
  dropOnFull := false
  asyncWrite := true

/-- Which arm of the `select` in `retryWriteBatch` fires during a backoff
wait: the backoff timer, the caller context's `Done` channel, or the
pipeline's `stopChan`. -/
inductive WaitOutcome where
  | timer
  | ctxCancel
  | stopped
  deriving Repr, DecidableEq

/-- Oracle for the effects of the transport and of the retry-loop selects. -/
structure Env where
  attemptResult : List Entry → Nat → Option Nat
  wait : Nat → WaitOutcome

/-- Errors observable from `retryWriteBatch`: an error returned by the
underlying `sink.WriteBatch` (identified by a code), or `ctx.Err()`. -/
inductive RErr where
  | sinkErr (e : Nat)
  | ctxErr
  deriving Repr, DecidableEq

/-- Observable outcome of one `retryWriteBatch` run: the returned error
(`none` = returned `nil`), the number of `sink.WriteBatch` invocations,
and the list of backoff durations actually waited out. -/
structure RetryTrace where
  result : Option RErr
  calls : Nat
  waits : List Nat
  deriving Repr, DecidableEq

/-- The mutable state of a `BufferedSink` from src/sink/buffer.go: the
queue plus its two `uint64` counters. -/
structure BufferedSink where
  buffer : List Entry
  droppedCount : Nat
  sentCount : Nat
  deriving Repr, DecidableEq

/-- Embeds the retry loop of `retryWriteBatch` (src/sink/buffer.go).
Arguments: current attempt index, current backoff interval, remaining
iterations (`MaxRetries + 1 - attempt`), and `lastErr`. -/
def BufferedSink.retryAux (env : Env) (batch : List Entry) :
    Nat → Nat → Nat → Option RErr → RetryTrace
  | _, _, 0, lastErr => ⟨lastErr, 0, []⟩
  | attempt, interval, fuel + 1, _ =>
    if attempt = 0 then
      match env.attemptResult batch attempt with
      | none => ⟨none, 1, []⟩
      | some e =>
        let t := BufferedSink.retryAux env batch (attempt + 1) interval fuel
          (some (RErr.sinkErr e))
        ⟨t.result, t.calls + 1, t.waits⟩
    else
      match env.wait attempt with
      | WaitOutcome.ctxCancel => ⟨some RErr.ctxErr, 0, []⟩
      | WaitOutcome.stopped => ⟨none, 0, []⟩
      | WaitOutcome.timer =>
        match env.attemptResult batch attempt with
        | none => ⟨none, 1, [interval]⟩
        | some e =>
          let t := BufferedSink.retryAux env batch (attempt + 1) (interval * 2) fuel
            (some (RErr.sinkErr e))
          ⟨t.result, t.calls + 1, interval :: t.waits⟩

/-- Embeds `retryWriteBatch` (src/sink/buffer.go, lines 125-155). -/
def BufferedSink.retryWriteBatch (cfg : Config) (env : Env) (batch : List Entry) :
    RetryTrace :=
  BufferedSink.retryAux env batch 0 cfg.retryInterval (cfg.maxRetries + 1) none

/-- Fuelled chunking; the fuel is the length of the list being chunked,
which bounds the iterations of the `for i := 0; i < len(toSend);
i += MaxBatchSize` loop whenever `MaxBatchSize ≥ 1`. -/
def chunksAux : Nat → Nat → List Entry → List (List Entry)
  | 0, _, _ => []
  | fuel + 1, n, l => if l.isEmpty then [] else l.take n :: chunksAux fuel n (l.drop n)

/-- The batches the flush loop of `flushBuffer` carves out of the snapshot
`toSend`, in order. -/
def chunks (n : Nat) (l : List Entry) : List (List Entry) :=
  chunksAux l.length n l

/-- Embeds the per-batch loop of `flushBuffer` (src/sink/buffer.go,
lines 102-119): deliver each chunk in order with `retryWriteBatch`; on
terminal failure either re-append the chunk to the live buffer
(`DropOnFull = false`) or count it dropped (`DropOnFull = true`) and
return the error. -/
def BufferedSink.processChunks (cfg : Config) (env : Env) :
    BufferedSink → List (List Entry) → Option RErr × BufferedSink
  | st, [] => (none, st)
  | st, batch :: rest =>
    match (BufferedSink.retryWriteBatch cfg env batch).result with
    | some e =>
      if cfg.dropOnFull then
        (some e, { st with droppedCount := (st.droppedCount + batch.length) % U64 })
      else
        (some e, { st with buffer := st.buffer ++ batch })
    | none =>
      BufferedSink.processChunks cfg env
        { st with sentCount := (st.sentCount + batch.length) % U64 } rest

/-- Embeds `flushBuffer` (src/sink/buffer.go, lines 89-122): return `nil`
on an empty buffer, otherwise snapshot the buffer, clear it, and send the
snapshot in chunks of at most `MaxBatchSize`. -/
def BufferedSink.flushBuffer (cfg : Config) (env : Env) (st : BufferedSink) :
    Option RErr × BufferedSink :=
  if st.buffer.isEmpty then (none, st)
  else BufferedSink.processChunks cfg env { st with buffer := [] }
    (chunks cfg.maxBatchSize st.buffer)

/-- Embeds `Flush` (src/sink/buffer.go, lines 82-86); the mutex is the
sequencing of the state-passing model. -/
def BufferedSink.Flush (cfg : Config) (env : Env) (st : BufferedSink) :
    Option RErr × BufferedSink :=
  BufferedSink.flushBuffer cfg env st

/-- The tail of `Write` after the capacity check: append the entry, then
flush synchronously when the queue has reached `MaxBatchSize`. -/
def BufferedSink.writeAppend (cfg : Config) (env : Env) (st : BufferedSink)
    (entry : Entry) : Option RErr × BufferedSink :=
  let st1 : BufferedSink := { st with buffer := st.buffer ++ [entry] }
  if cfg.maxBatchSize ≤ st1.buffer.length then BufferedSink.flushBuffer cfg env st1
  else (none, st1)

/-- Embeds `Write` (src/sink/buffer.go, lines 44-69). -/
def BufferedSink.Write (cfg : Config) (env : Env) (st : BufferedSink)
    (entry : Entry) : Option RErr × BufferedSink :=
  if cfg.bufferSize ≤ st.buffer.length then
    if cfg.dropOnFull then
      (none, { st with droppedCount := (st.droppedCount + 1) % U64 })
    else
      match BufferedSink.flushBuffer cfg env st with
      | (some e, st1) => (some e, st1)
      | (none, st1) => BufferedSink.writeAppend cfg env st1 entry
  else BufferedSink.writeAppend cfg env st entry

/-- Embeds `WriteBatch` of the buffered sink (src/sink/buffer.go,
lines 72-79): apply `Write` to each entry in order, stopping at the first
error. -/
def BufferedSink.WriteBatch (cfg : Config) (env : Env) :
    BufferedSink → List Entry → Option RErr × BufferedSink
  | st, [] => (none, st)
  | st, e :: es =>
    match BufferedSink.Write cfg env st e with
    | (none, st1) => BufferedSink.WriteBatch cfg env st1 es
    | (some err, st1) => (some err, st1)

/-- Embeds `Stats` (src/sink/buffer.go, lines 192-196):
`(sent, dropped, buffered)`. -/
def BufferedSink.Stats (st : BufferedSink) : Nat × Nat × Nat :=
  (st.sentCount, st.droppedCount, st.buffer.length)

/-- The value of the sent counter after the successful chunks `pre`, with
the same wrap-around accumulation the flush loop performs. -/
def sentAfter (s : Nat) (pre : List (List Entry)) : Nat :=
  pre.foldl (fun a b => (a + b.length) % U64) s

/-- The list of backoff durations produced by starting at `i` and doubling
after each wait. -/
def backoffWaits : Nat → Nat → List Nat
  | _, 0 => []
  | i, n + 1 => i :: backoffWaits (i * 2) n

/-- An environment whose transport succeeds on every call and whose waits
always let the backoff timer fire. -/
def envOk : Env where
  attemptResult := fun _ _ => none
  wait := fun _ => WaitOutcome.timer

/-- A pipeline state with an empty buffer and zeroed counters. -/
def st0 : BufferedSink := ⟨[], 0, 0⟩

/-- Configuration of the concrete scenario of claim C6. -/
def cfg6 : Config := { DefaultConfig with bufferSize := 10, maxBatchSize := 5 }

/-- A configuration inside the scope of claim C3 as stated:
two writes do not exceed BufferSize - 1 = 2, yet reach MaxBatchSize = 2. -/
def cfg3 : Config := { DefaultConfig with bufferSize := 3, maxBatchSize := 2 }

/-- A configuration inside the scope of claim C4 as stated, with
MaxBatchSize exceeding BufferSize. -/
def cfg4 : Config := { DefaultConfig with bufferSize := 2, maxBatchSize := 5 }

/-- C5: a write arriving while the buffer already holds at least
`BufferSize` entries under `DropOnFull = true` discards the entry,
increments the dropped counter by one (the hypothesis `st.droppedCount + 1
< U64` rules out the wrap of the Go `uint64` counter), leaves the buffer
and the sent counter unchanged, and returns no error. -/
theorem c5_drop_on_full (cfg : Config) (env : Env) (st : BufferedSink) (e : Entry)
    (hdrop : cfg.dropOnFull = true)
    (hfull : cfg.bufferSize ≤ st.buffer.length)
    (hov : st.droppedCount + 1 < U64) :
    BufferedSink.Write cfg env st e =
      (none, { st with droppedCount := st.droppedCount + 1 }) := by
  simp [BufferedSink.Write, hdrop, if_pos hfull, Nat.mod_eq_of_lt hov]

/-- Witness for `c5_drop_on_full` at a concrete full buffer. -/
theorem c5_witness :
    BufferedSink.Write { DefaultConfig with bufferSize := 1, dropOnFull := true }
        envOk ⟨[7], 0, 0⟩ 9 =
      (none, ({ buffer := [7], droppedCount := 1, sentCount := 0 } : BufferedSink)) :=
  c5_drop_on_full { DefaultConfig with bufferSize := 1, dropOnFull := true }
    envOk ⟨[7], 0, 0⟩ 9 rfl (by decide) (by decide)

/-- C6: with `BufferSize = 10`, `MaxBatchSize = 5`, `DropOnFull = false`
and an always-succeeding transport, writing 12 entries sequentially yields
`sent = 10`, `dropped = 0`, `buffered = 2`, and a subsequent explicit
`Flush` yields `sent = 12`, `buffered = 0`. -/
theorem c6_concrete_scenario :
    (BufferedSink.WriteBatch cfg6 envOk st0 (List.range 12)).1 = none ∧
    BufferedSink.Stats (BufferedSink.WriteBatch cfg6 envOk st0 (List.range 12)).2 =
      (10, 0, 2) ∧
    (BufferedSink.Flush cfg6 envOk
        (BufferedSink.WriteBatch cfg6 envOk st0 (List.range 12)).2).1 = none ∧
    BufferedSink.Stats (BufferedSink.Flush cfg6 envOk
        (BufferedSink.WriteBatch cfg6 envOk st0 (List.range 12)).2).2 =
      (12, 0, 0) := by
  refine ⟨by decide, by decide, by decide, by decide⟩

/-- C10: flushing while the buffer is empty returns `nil` and leaves the
whole state (buffer, sent counter, dropped counter) unchanged; the result
does not depend on `env` at all, so the transport is never invoked. -/
theorem c10_empty_flush_noop (cfg : Config) (env : Env) (st : BufferedSink)
    (h : st.buffer = []) :
    BufferedSink.Flush cfg env st = (none, st) := by
  simp [BufferedSink.Flush, BufferedSink.flushBuffer, h]

/-- Witness for `c10_empty_flush_noop` on the empty initial state. -/
theorem c10_witness : BufferedSink.Flush DefaultConfig envOk st0 = (none, st0) :=
  c10_empty_flush_noop DefaultConfig envOk st0 rfl

/-- Counterexample to C3 as stated: under `cfg3` the sequence `[0, 1]` of
2 writes does not exceed `BufferSize - 1 = 2`, yet reaching
`MaxBatchSize = 2` triggers an automatic flush, so `stats()` reports 0
buffered entries, not 2. -/
theorem c3_counterexample :
    2 ≤ cfg3.bufferSize - 1 ∧
    (BufferedSink.WriteBatch cfg3 envOk st0 [0, 1]).1 = none ∧
    (BufferedSink.WriteBatch cfg3 envOk st0 [0, 1]).2.buffer.length ≠ 2 := by
  refine ⟨by decide, by decide, by decide⟩

/-- Counterexample to C4 as stated: under `cfg4` (where
`MaxBatchSize = 5 > BufferSize = 2`) writing exactly `MaxBatchSize = 5`
entries to an empty buffer with an always-succeeding transport ends with
`sent = 4` and one entry still buffered, not `sent = 5` and an empty
buffer. -/
theorem c4_counterexample :
    (List.range 5).length = cfg4.maxBatchSize ∧
    (BufferedSink.WriteBatch cfg4 envOk st0 (List.range 5)).2.sentCount ≠ 5 ∧
    (BufferedSink.WriteBatch cfg4 envOk st0 (List.range 5)).2.buffer.length ≠ 0 := by
  refine ⟨by decide, by decide, by decide⟩

/-- Chunking the empty list gives no chunks, for any fuel. -/
theorem chunksAux_nil (fuel n : Nat) : chunksAux fuel n [] = [] := by
  cases fuel <;> simp [chunksAux]

/-- A nonempty snapshot fitting in one batch produces exactly one chunk. -/
theorem chunks_of_length_le (n : Nat) (l : List Entry) (h0 : l ≠ [])
    (h2 : l.length ≤ n) : chunks n l = [l] := by
  cases l with
  | nil => exact absurd rfl h0
  | cons a as =>
    simp only [chunks, List.length_cons, chunksAux, List.isEmpty_cons,
      Bool.false_eq_true, if_false]
    rw [List.take_of_length_le h2, List.drop_eq_nil_of_le h2, chunksAux_nil]

/-- If the first delivery attempt succeeds, `retryWriteBatch` returns `nil`
after one transport call and no backoff wait. -/
theorem retry_first_success (cfg : Config) (env : Env) (batch : List Entry)
    (h : env.attemptResult batch 0 = none) :
    BufferedSink.retryWriteBatch cfg env batch = ⟨none, 1, []⟩ := by
  simp [BufferedSink.retryWriteBatch, BufferedSink.retryAux, h]

/-- A run of writes that never fills the buffer and never reaches
`MaxBatchSize` only appends: no flush happens, no error is possible, and
the counters are untouched. -/
theorem writeBatch_no_flush (cfg : Config) (env : Env) (es : List Entry) :
    ∀ st : BufferedSink,
      st.buffer.length + es.length ≤ cfg.bufferSize →
      st.buffer.length + es.length < cfg.maxBatchSize →
      BufferedSink.WriteBatch cfg env st es =
        (none, { st with buffer := st.buffer ++ es }) := by
  induction es with
  | nil => intro st _ _; simp [BufferedSink.WriteBatch]
  | cons e es ih =>
    intro st h1 h2
    simp only [List.length_cons] at h1 h2
    have hA : ¬ cfg.bufferSize ≤ st.buffer.length := by omega
    have hB : ¬ cfg.maxBatchSize ≤ st.buffer.length + 1 := by omega
    rw [BufferedSink.WriteBatch, BufferedSink.Write, if_neg hA,
      BufferedSink.writeAppend]
    simp only [List.length_append, List.length_cons, List.length_nil,
      Nat.zero_add, if_neg hB]
    rw [ih { st with buffer := st.buffer ++ [e] }
      (by simpa using by omega) (by simpa using by omega)]
    simp [List.append_assoc]

/-- `WriteBatch` processes an appended list by processing the first part
and, if that produced no error, continuing with the second. -/
theorem writeBatch_append (cfg : Config) (env : Env) (xs ys : List Entry) :
    ∀ st : BufferedSink,
      BufferedSink.WriteBatch cfg env st (xs ++ ys) =
        match BufferedSink.WriteBatch cfg env st xs with
        | (none, st1) => BufferedSink.WriteBatch cfg env st1 ys
        | (some e, st1) => (some e, st1) := by
  induction xs with
  | nil => intro st; simp [BufferedSink.WriteBatch]
  | cons x xs ih =>
    intro st
    rw [List.cons_append, BufferedSink.WriteBatch, BufferedSink.WriteBatch]
    cases hW : BufferedSink.Write cfg env st x with
    | mk r st1 =>
      cases r with
      | none => simp [ih]
      | some e => simp

/-- If the first part of an appended write sequence errs nowhere, the
second part continues from the state the first part produced. -/
theorem writeBatch_append_ok (cfg : Config) (env : Env) (xs ys : List Entry)
    (st st1 : BufferedSink)
    (h : BufferedSink.WriteBatch cfg env st xs = (none, st1)) :
    BufferedSink.WriteBatch cfg env st (xs ++ ys) =
      BufferedSink.WriteBatch cfg env st1 ys := by
  rw [writeBatch_append cfg env xs ys st, h]

/-- C3 (amended): starting from an empty buffer, for every sequence of
writes whose length is at most `BufferSize - 1` and also strictly below
`MaxBatchSize`, no write errs and the buffered-entry count reported by
`Stats` equals the number of entries written. -/
theorem c3_buffered_equals_written (cfg : Config) (env : Env)
    (st : BufferedSink) (es : List Entry)
    (hempty : st.buffer = [])
    (hbuf : es.length ≤ cfg.bufferSize - 1)
    (hbatch : es.length < cfg.maxBatchSize) :
    (BufferedSink.WriteBatch cfg env st es).1 = none ∧
    (BufferedSink.Stats (BufferedSink.WriteBatch cfg env st es).2).2.2 =
      es.length := by
  have h1 : st.buffer.length + es.length ≤ cfg.bufferSize := by
    rw [hempty]; simp; omega
  have h2 : st.buffer.length + es.length < cfg.maxBatchSize := by
    rw [hempty]; simpa
  rw [writeBatch_no_flush cfg env es st h1 h2]
  simp [BufferedSink.Stats, hempty]

/-- Witness for `c3_buffered_equals_written`: three writes under the
default configuration stay buffered. -/
theorem c3_witness :
    (BufferedSink.WriteBatch DefaultConfig envOk st0 [4, 5, 6]).1 = none ∧
    (BufferedSink.Stats
      (BufferedSink.WriteBatch DefaultConfig envOk st0 [4, 5, 6]).2).2.2 = 3 :=
  c3_buffered_equals_written DefaultConfig envOk st0 [4, 5, 6] rfl
    (by decide) (by decide)

/-- C4 (amended): with `1 ≤ MaxBatchSize ≤ BufferSize` (the regime the
spec's scenario lives in; the counterexample shows the claim fails when
`MaxBatchSize > BufferSize`), an always-succeeding transport and an empty
buffer, writing exactly `MaxBatchSize` entries triggers the automatic
synchronous flush on the last write: no error, the sent counter grows by
`MaxBatchSize` (the hypothesis `hov` rules out `uint64` wrap), the
dropped counter is untouched and the buffer is empty again. -/
theorem c4_batch_flush (cfg : Config) (env : Env) (st : BufferedSink)
    (es : List Entry)
    (hsucc : ∀ b n, env.attemptResult b n = none)
    (hempty : st.buffer = [])
    (h1 : 1 ≤ cfg.maxBatchSize)
    (h2 : cfg.maxBatchSize ≤ cfg.bufferSize)
    (hlen : es.length = cfg.maxBatchSize)
    (hov : st.sentCount + cfg.maxBatchSize < U64) :
    BufferedSink.WriteBatch cfg env st es =
      (none, { st with buffer := [],
                       sentCount := st.sentCount + cfg.maxBatchSize }) := by
  have hne : es ≠ [] := by
    intro h; rw [h] at hlen; simp at hlen; omega
  have hb0 : st.buffer.length = 0 := by rw [hempty]; rfl
  have hdl : es.dropLast.length = cfg.maxBatchSize - 1 := by
    rw [List.length_dropLast, hlen]
  have hsplit := List.dropLast_append_getLast hne
  have hstep := writeBatch_no_flush cfg env es.dropLast st (by omega) (by omega)
  rw [← hsplit, writeBatch_append_ok cfg env _ _ _ _ hstep]
  rw [BufferedSink.WriteBatch, BufferedSink.Write]
  rw [if_neg (show ¬ cfg.bufferSize ≤
      (({ st with buffer := st.buffer ++ es.dropLast } :
        BufferedSink).buffer).length by
    simp only [List.length_append, hb0, hdl]; omega)]
  simp only [BufferedSink.writeAppend, hempty, List.nil_append, hsplit]
  rw [if_pos (show cfg.maxBatchSize ≤ es.length by omega)]
  rw [BufferedSink.flushBuffer]
  rw [if_neg (by simpa using hne)]
  rw [chunks_of_length_le cfg.maxBatchSize es hne (by omega)]
  rw [BufferedSink.processChunks, retry_first_success cfg env es (hsucc es 0)]
  simp only [BufferedSink.processChunks, BufferedSink.WriteBatch]
  simp [hlen, Nat.mod_eq_of_lt hov]

/-- Witness for `c4_batch_flush`: five writes with `MaxBatchSize = 5`
under `BufferSize = 10` flush automatically. -/
theorem c4_witness :
    BufferedSink.WriteBatch cfg6 envOk st0 (List.range 5) =
      (none, ({ buffer := [], droppedCount := 0, sentCount := 5 } :
        BufferedSink)) :=
  c4_batch_flush cfg6 envOk st0 (List.range 5) (fun _ _ => rfl) rfl
    (by decide) (by decide) (by decide) (by decide)

/-- The flush loop walks over chunks whose deliveries succeed by adding
each chunk's size to the sent counter and moving on. -/
theorem processChunks_ok_prefix (cfg : Config) (env : Env)
    (pre : List (List Entry))
    (hpre : ∀ b ∈ pre, (BufferedSink.retryWriteBatch cfg env b).result = none) :
    ∀ (st : BufferedSink) (rest : List (List Entry)),
      BufferedSink.processChunks cfg env st (pre ++ rest) =
        BufferedSink.processChunks cfg env
          { st with sentCount := sentAfter st.sentCount pre } rest := by
  induction pre with
  | nil => intro st rest; simp [sentAfter]
  | cons b pre ih =>
    intro st rest
    rw [List.cons_append, BufferedSink.processChunks, hpre b (by simp)]
    rw [ih (fun x hx => hpre x (by simp [hx]))]
    simp [sentAfter]

/-- C1: during a flush whose snapshot was chunked as `pre ++ c :: post`
(more than one chunk), where every chunk of `pre` delivers and chunk `c`
fails terminally with error `e`: the flush returns `e`; with
`DropOnFull = false` exactly the failing chunk `c` is re-appended to the
(previously cleared) live buffer, with `DropOnFull = true` the dropped
counter grows by exactly `c`'s size; the sent counter accounts only for
`pre`.  The conclusion never consults `env` on the chunks of `post`, and
`post` is absent from the final state: the later chunks of the snapshot
are neither delivered, nor re-queued, nor counted as sent or dropped. -/
theorem c1_flush_chunk_failure (cfg : Config) (env : Env) (st : BufferedSink)
    (pre post : List (List Entry)) (c : List Entry) (e : RErr)
    (hchunks : chunks cfg.maxBatchSize st.buffer = pre ++ c :: post)
    (hmulti : 2 ≤ (pre ++ c :: post).length)
    (hpre : ∀ b ∈ pre, (BufferedSink.retryWriteBatch cfg env b).result = none)
    (hfail : (BufferedSink.retryWriteBatch cfg env c).result = some e) :
    BufferedSink.flushBuffer cfg env st =
      (some e,
        { buffer := if cfg.dropOnFull then [] else c,
          droppedCount := if cfg.dropOnFull then
            (st.droppedCount + c.length) % U64 else st.droppedCount,
          sentCount := sentAfter st.sentCount pre }) := by
  have hne : ¬ st.buffer.isEmpty = true := by
    intro h
    rw [List.isEmpty_iff] at h
    rw [h] at hchunks
    simp [chunks, chunksAux] at hchunks
  rw [BufferedSink.flushBuffer, if_neg hne, hchunks,
    processChunks_ok_prefix cfg env pre hpre]
  rw [BufferedSink.processChunks, hfail]
  cases hd : cfg.dropOnFull <;> simp [hd, sentAfter]

/-- Configuration for the concrete instance of claim C1. -/
def cfgC1 : Config :=
  { DefaultConfig with maxBatchSize := 1, maxRetries := 0 }

/-- A transport that rejects exactly the batch `[1]` and accepts
everything else, with all backoff waits running their timer out. -/
def envC1 : Env where
  attemptResult := fun b _ => if b = [1] then some 3 else none
  wait := fun _ => WaitOutcome.timer

/-- Witness for `c1_flush_chunk_failure`: a two-chunk snapshot whose
second chunk fails terminally under `DropOnFull = false`. -/
theorem c1_witness :
    BufferedSink.flushBuffer cfgC1 envC1 ⟨[0, 1], 0, 0⟩ =
      (some (RErr.sinkErr 3),
        ({ buffer := [1], droppedCount := 0, sentCount := 1 } :
          BufferedSink)) :=
  c1_flush_chunk_failure cfgC1 envC1 ⟨[0, 1], 0, 0⟩ [[0]] [] [1]
    (RErr.sinkErr 3) (by decide) (by decide) (by decide) (by decide)

/-- The doubling backoff sequence starting at `i` is
`i, 2*i, 4*i, ...`. -/
theorem backoffWaits_eq_range (n : Nat) :
    ∀ i : Nat, backoffWaits i n = (List.range n).map (fun k => 2 ^ k * i) := by
  induction n with
  | zero => intro i; simp [backoffWaits]
  | succ n ih =>
    intro i
    rw [backoffWaits, ih (i * 2), List.range_succ_eq_map]
    simp only [List.map_cons, List.map_map]
    congr 1
    · simp
    · apply List.map_congr_left
      intro k _
      simp only [Function.comp_apply]
      rw [pow_succ]
      ring

/-- Retry loop segment starting at attempt `a ≥ 1` when every attempt
fails and every backoff wait runs its timer out: it performs all its
remaining iterations, waits the doubling sequence starting at the current
interval, and ends with the last attempt's error. -/
theorem retryAux_all_fail (env : Env) (batch : List Entry)
    (hwait : ∀ n, env.wait n = WaitOutcome.timer) (n : Nat) :
    ∀ (a i : Nat) (le : Option RErr), 1 ≤ a →
      (∀ j, j ≤ a + n → (env.attemptResult batch j).isSome = true) →
      BufferedSink.retryAux env batch a i (n + 1) le =
        ⟨(env.attemptResult batch (a + n)).map RErr.sinkErr, n + 1,
          backoffWaits i (n + 1)⟩ := by
  induction n with
  | zero =>
    intro a i le ha hfail
    obtain ⟨e, he⟩ := Option.isSome_iff_exists.mp (hfail a (by omega))
    rw [BufferedSink.retryAux, if_neg (show ¬ a = 0 by omega)]
    simp [BufferedSink.retryAux, hwait, he, backoffWaits]
  | succ n ih =>
    intro a i le ha hfail
    obtain ⟨e, he⟩ := Option.isSome_iff_exists.mp (hfail a (by omega))
    rw [BufferedSink.retryAux, if_neg (show ¬ a = 0 by omega)]
    simp only [hwait, he]
    rw [ih (a + 1) (i * 2) (some (RErr.sinkErr e)) (by omega)
      (fun j hj => hfail j (by omega))]
    rw [show a + 1 + n = a + (n + 1) from by omega]
    simp [backoffWaits]

/-- C2: when the transport fails on every attempt and neither the caller
context nor the shutdown signal ever interrupts a backoff wait (every
`select` lets the timer fire), `retryWriteBatch` makes exactly
`MaxRetries + 1` transport calls, the successive backoff waits are
`RetryInterval, 2*RetryInterval, 4*RetryInterval, ...`, and the error it
reports is the error of the last attempt (attempt number `MaxRetries`). -/
theorem c2_retry_attempts (cfg : Config) (env : Env) (batch : List Entry)
    (hfail : ∀ n, n ≤ cfg.maxRetries → (env.attemptResult batch n).isSome = true)
    (hwait : ∀ n, env.wait n = WaitOutcome.timer) :
    BufferedSink.retryWriteBatch cfg env batch =
      ⟨(env.attemptResult batch cfg.maxRetries).map RErr.sinkErr,
        cfg.maxRetries + 1,
        (List.range cfg.maxRetries).map (fun k => 2 ^ k * cfg.retryInterval)⟩ := by
  obtain ⟨e0, he0⟩ := Option.isSome_iff_exists.mp (hfail 0 (Nat.zero_le _))
  rw [BufferedSink.retryWriteBatch]
  cases hm : cfg.maxRetries with
  | zero =>
    simp [BufferedSink.retryAux, he0]
  | succ m =>
    rw [BufferedSink.retryAux]
    simp only [if_pos rfl, he0]
    rw [retryAux_all_fail env batch hwait m 1 cfg.retryInterval
      (some (RErr.sinkErr e0)) (by omega)
      (fun j hj => hfail j (by omega))]
    rw [show 1 + m = m + 1 from by omega]
    simp [backoffWaits_eq_range]

/-- Configuration for the concrete instance of claim C2. -/
def cfgC2 : Config := { DefaultConfig with maxRetries := 2, retryInterval := 3 }

/-- A transport that fails attempt `n` with error code `n`, with all
backoff waits running their timer out. -/
def envFailAll : Env where
  attemptResult := fun _ n => some n
  wait := fun _ => WaitOutcome.timer

/-- Witness for `c2_retry_attempts`: `MaxRetries = 2`, `RetryInterval = 3`
gives 3 attempts, waits `[3, 6]`, and the error of attempt 2. -/
theorem c2_witness :
    BufferedSink.retryWriteBatch cfgC2 envFailAll [0] =
      ⟨some (RErr.sinkErr 2), 3, [3, 6]⟩ := by
  rw [c2_retry_attempts cfgC2 envFailAll [0]
    (fun n _ => rfl) (fun n => rfl)]
  decide

/-- Retry loop segment starting at attempt `a ≥ 1`: if every attempt below
`k` fails, every wait below `k` runs its timer out, and the wait before
attempt `k` is won by the shutdown channel, the loop returns `nil` after
`k - a` further transport calls. -/
theorem retryAux_stopped (env : Env) (batch : List Entry) (k : Nat)
    (hwait : ∀ j, 1 ≤ j → j < k → env.wait j = WaitOutcome.timer)
    (hstop : env.wait k = WaitOutcome.stopped)
    (hfail : ∀ j, j < k → (env.attemptResult batch j).isSome = true)
    (n : Nat) :
    ∀ (a i : Nat) (le : Option RErr) (fuel : Nat), 1 ≤ a → a + n = k →
      n < fuel →
      (BufferedSink.retryAux env batch a i fuel le).result = none ∧
      (BufferedSink.retryAux env batch a i fuel le).calls = k - a := by
  induction n with
  | zero =>
    intro a i le fuel ha hak hnf
    obtain ⟨f, rfl⟩ : ∃ f, fuel = f + 1 := ⟨fuel - 1, by omega⟩
    have hak0 : a = k := by omega
    subst hak0
    rw [BufferedSink.retryAux, if_neg (show ¬ a = 0 by omega), hstop]
    exact ⟨rfl, by simp⟩
  | succ n ih =>
    intro a i le fuel ha hak hnf
    obtain ⟨f, rfl⟩ : ∃ f, fuel = f + 1 := ⟨fuel - 1, by omega⟩
    have haw : env.wait a = WaitOutcome.timer := hwait a ha (by omega)
    obtain ⟨e, he⟩ := Option.isSome_iff_exists.mp (hfail a (by omega))
    rw [BufferedSink.retryAux, if_neg (show ¬ a = 0 by omega)]
    simp only [haw, he]
    obtain ⟨h1, h2⟩ := ih (a + 1) (i * 2) (some (RErr.sinkErr e)) f
      (by omega) (by omega) (by omega)
    refine ⟨h1, ?_⟩
    show (BufferedSink.retryAux env batch (a + 1) (i * 2) f
      (some (RErr.sinkErr e))).calls + 1 = k - a
    rw [h2]
    omega

/-- C9: if, during the backoff wait before attempt `k` of a chunk whose
first `k` attempts all failed, the pipeline's shutdown channel is closed
(the `stopChan` arm of the `select` wins), `retryWriteBatch` returns `nil`
after exactly those `k` failed transport calls, and `flushBuffer`
therefore adds the chunk's size to the sent counter and discards the
chunk, even though the transport never accepted it. -/
theorem c9_shutdown_counts_sent (cfg : Config) (env : Env)
    (st : BufferedSink) (batch : List Entry) (k : Nat)
    (hk1 : 1 ≤ k) (hk2 : k ≤ cfg.maxRetries)
    (hwait : ∀ j, 1 ≤ j → j < k → env.wait j = WaitOutcome.timer)
    (hstop : env.wait k = WaitOutcome.stopped)
    (hfail : ∀ j, j < k → (env.attemptResult batch j).isSome = true)
    (hbuf : st.buffer = batch) (hne : batch ≠ [])
    (hlen : batch.length ≤ cfg.maxBatchSize) :
    (BufferedSink.retryWriteBatch cfg env batch).result = none ∧
    (BufferedSink.retryWriteBatch cfg env batch).calls = k ∧
    BufferedSink.flushBuffer cfg env st =
      (none, { buffer := [], droppedCount := st.droppedCount,
               sentCount := (st.sentCount + batch.length) % U64 }) := by
  obtain ⟨e0, he0⟩ := Option.isSome_iff_exists.mp (hfail 0 hk1)
  obtain ⟨m, hm⟩ : ∃ m, cfg.maxRetries = m + 1 := ⟨cfg.maxRetries - 1, by omega⟩
  obtain ⟨hr1, hr2⟩ := retryAux_stopped env batch k hwait hstop hfail (k - 1)
    1 cfg.retryInterval (some (RErr.sinkErr e0)) (m + 1)
    (by omega) (by omega) (by omega)
  have hres : (BufferedSink.retryWriteBatch cfg env batch).result = none := by
    rw [BufferedSink.retryWriteBatch, hm, BufferedSink.retryAux]
    simp only [if_pos rfl, he0]
    exact hr1
  have hcalls : (BufferedSink.retryWriteBatch cfg env batch).calls = k := by
    rw [BufferedSink.retryWriteBatch, hm, BufferedSink.retryAux]
    simp only [if_pos rfl, he0]
    show (BufferedSink.retryAux env batch 1 cfg.retryInterval (m + 1)
      (some (RErr.sinkErr e0))).calls + 1 = k
    rw [hr2]
    omega
  refine ⟨hres, hcalls, ?_⟩
  rw [BufferedSink.flushBuffer, if_neg (by simp [hbuf, hne]), hbuf,
    chunks_of_length_le cfg.maxBatchSize batch hne hlen,
    BufferedSink.processChunks, hres]
  simp [BufferedSink.processChunks]

/-- Configuration for the concrete instance of claim C9. -/
def cfgC9 : Config := { DefaultConfig with maxRetries := 2 }

/-- A transport that fails every attempt, in a pipeline whose shutdown
channel closes during the first backoff wait. -/
def envC9 : Env where
  attemptResult := fun _ _ => some 5
  wait := fun j => if j = 1 then WaitOutcome.stopped else WaitOutcome.timer

/-- Witness for `c9_shutdown_counts_sent`: attempt 0 fails, the shutdown
channel wins the first backoff wait, and the chunk `[3]` is counted as
sent anyway. -/
theorem c9_witness :
    (BufferedSink.retryWriteBatch cfgC9 envC9 [3]).result = none ∧
    (BufferedSink.retryWriteBatch cfgC9 envC9 [3]).calls = 1 ∧
    BufferedSink.flushBuffer cfgC9 envC9 ⟨[3], 0, 0⟩ =
      (none, ({ buffer := [], droppedCount := 0, sentCount := 1 } :
        BufferedSink)) := by
  have h := c9_shutdown_counts_sent cfgC9 envC9 ⟨[3], 0, 0⟩ [3] 1
    (by decide) (by decide) (fun j h1 h2 => absurd (h1.trans_lt h2) (by omega))
    (by decide) (by decide) rfl (by decide) (by decide)
  simpa using h

/-- Errors observable around `LokiSink.WriteBatch` (src/sink/sink.go):
a base error (identified by a code), the stage-wrapping errors built with
`fmt.Errorf("...: %w", err)` before being recorded, and the Loki non-2xx
status error. -/
inductive LErr where
  | raw (n : Nat)
  | wrapMarshal (e : LErr)
  | wrapRequest (e : LErr)
  | wrapSend (e : LErr)
  | status (code : Nat)
  deriving Repr, DecidableEq

/-- Strip one wrapping layer: the error a recorded wrapper was built
from (`%w`); a non-wrapped error is its own base. -/
def LErr.inner : LErr → LErr
  | LErr.wrapMarshal e => e
  | LErr.wrapRequest e => e
  | LErr.wrapSend e => e
  | e => e

/-- Oracle for the effectful stages of `LokiSink.WriteBatch`:
whether `json.Marshal`, `http.NewRequestWithContext` and `client.Do`
fail (and with what base error), and the HTTP status code of the
response when the request goes through. -/
structure LokiEnv where
  marshalErr : Option Nat
  requestErr : Option Nat
  sendErr : Option Nat
  statusCode : Nat
  deriving Repr, DecidableEq

/-- The mutable state of a `LokiSink` (src/sink/sink.go): the health flag
and the recorded last error. -/
structure LokiState where
  isHealthy : Bool
  lastError : Option LErr
  deriving Repr, DecidableEq

/-- Embeds `recordError` (src/sink/sink.go, lines 343-347): mark
unhealthy and store the error. -/
def LokiSink.recordError (_st : LokiState) (e : LErr) : LokiState :=
  ⟨false, some e⟩

/-- Embeds the control flow of `LokiSink.WriteBatch` (src/sink/sink.go,
lines 178-262) over the `LokiEnv` oracle: an empty batch returns `nil`
immediately; a marshal, request-creation or network failure records the
stage-wrapped error and returns the base error; a non-2xx status records
and returns the status error; otherwise the health flag is set to true
and `nil` is returned. -/
def LokiSink.WriteBatch (env : LokiEnv) (st : LokiState) (entries : List Entry) :
    Option LErr × LokiState :=
  if entries.isEmpty then (none, st)
  else
    match env.marshalErr with
    | some n =>
      (some (LErr.raw n), LokiSink.recordError st (LErr.wrapMarshal (LErr.raw n)))
    | none =>
      match env.requestErr with
      | some n =>
        (some (LErr.raw n), LokiSink.recordError st (LErr.wrapRequest (LErr.raw n)))
      | none =>
        match env.sendErr with
        | some n =>
          (some (LErr.raw n), LokiSink.recordError st (LErr.wrapSend (LErr.raw n)))
        | none =>
          if 200 ≤ env.statusCode ∧ env.statusCode < 300 then
            (none, { st with isHealthy := true })
          else
            (some (LErr.status env.statusCode),
              LokiSink.recordError st (LErr.status env.statusCode))

/-- C7 (amended): for every `LokiSink.WriteBatch` call on a nonempty
batch, if the call fails the health flag becomes false and the failing
error — wrapped with a stage-describing message for marshal,
request-creation and network failures, verbatim for a non-2xx status —
is recorded as the last error; if the call succeeds the health flag
becomes true and the last error is untouched.  (The counterexample shows
the nonempty restriction is necessary: an empty batch succeeds without
touching the health flag.) -/
theorem c7_health_tracking (env : LokiEnv) (st : LokiState)
    (entries : List Entry) (h : entries ≠ []) :
    ((LokiSink.WriteBatch env st entries).1 = none →
      (LokiSink.WriteBatch env st entries).2.isHealthy = true ∧
      (LokiSink.WriteBatch env st entries).2.lastError = st.lastError) ∧
    (∀ e, (LokiSink.WriteBatch env st entries).1 = some e →
      (LokiSink.WriteBatch env st entries).2.isHealthy = false ∧
      ∃ w, (LokiSink.WriteBatch env st entries).2.lastError = some w ∧
        LErr.inner w = e) := by
  have hne : ¬ entries.isEmpty = true := by simpa using h
  rw [LokiSink.WriteBatch, if_neg hne]
  cases env.marshalErr with
  | some n => simp [LokiSink.recordError, LErr.inner]
  | none =>
    cases env.requestErr with
    | some n => simp [LokiSink.recordError, LErr.inner]
    | none =>
      cases env.sendErr with
      | some n => simp [LokiSink.recordError, LErr.inner]
      | none =>
        by_cases hs : 200 ≤ env.statusCode ∧ env.statusCode < 300
        · simp [hs]
        · simp [hs, LokiSink.recordError, LErr.inner]

/-- A `LokiEnv` in which every stage succeeds and the response status is
204. -/
def env204 : LokiEnv := ⟨none, none, none, 204⟩

/-- Witness for `c7_health_tracking`: a successful call on a nonempty
batch flips an unhealthy sink back to healthy. -/
theorem c7_witness :
    (LokiSink.WriteBatch env204 ⟨false, some (LErr.raw 9)⟩ [0]).1 = none ∧
    (LokiSink.WriteBatch env204 ⟨false, some (LErr.raw 9)⟩ [0]).2.isHealthy
      = true := by
  have h := c7_health_tracking env204 ⟨false, some (LErr.raw 9)⟩ [0]
    (by decide)
  exact ⟨by decide, (h.1 (by decide)).1⟩

/-- Counterexample to C7 as stated: a `WriteBatch` call on an empty batch
succeeds (returns `nil`) yet does not flip the health flag back to true,
contradicting "if the call succeeds the health flag becomes true". -/
theorem c7_counterexample :
    (LokiSink.WriteBatch env204 ⟨false, none⟩ []).1 = none ∧
    (LokiSink.WriteBatch env204 ⟨false, none⟩ []).2.isHealthy = false := by
  exact ⟨by decide, by decide⟩

/-- Embeds `BasicAuth` (src/logger/logger.go, lines 526-530, where the
generic HTTP sink's source is staged): the basic-credential pair
referenced by `LokiSinkConfig.BasicAuth`.  `NewLokiSink` never reads it;
it is only carried through the configuration. -/
structure BasicAuth where
  username : String
  password : String
  deriving Repr, DecidableEq

/-- Embeds `LokiSinkConfig` (src/sink/sink.go, lines 101-109).  Go `nil`
maps and the `nil` embedded `*Config` are modelled with `Option`. -/
structure LokiSinkConfig where
  config : Option Config
  url : String
  tenantID : String
  labels : Option (List (String × String))
  bearerToken : String
  basicAuth : Option BasicAuth
  deriving Repr, DecidableEq

/-- Lookup in a Go `map[string]string` modelled as an association list:
a missing key reads as the empty string. -/
def mapGet (ls : List (String × String)) (k : String) : String :=
  ((ls.find? (fun p => p.1 == k)).map Prod.snd).getD ""

/-- Update in a Go `map[string]string` modelled as an association list. -/
def mapSet (ls : List (String × String)) (k v : String) :
    List (String × String) :=
  (k, v) :: ls.eraseP (fun p => p.1 == k)

/-- The constructed `LokiSink` (src/sink/sink.go, lines 112-117): the
resolved configuration plus the health flag and last error, which
`NewLokiSink` initialises to healthy/none. -/
structure LokiSink where
  config : LokiSinkConfig
  state : LokiState
  deriving Repr, DecidableEq

/-- Embeds `NewLokiSink` (src/sink/sink.go, lines 131-170): reject a nil
config, default a nil embedded `Config`, reject an empty URL, default a
nil label map and fill in the `service`/`environment`/`instance` labels
from the service metadata when they are absent or empty, then return the
sink with its health flag set to true. -/
def NewLokiSink (config : Option LokiSinkConfig) : Except String LokiSink :=
  match config with
  | none => Except.error "config is required"
  | some c =>
    let base := c.config.getD DefaultConfig
    if c.url = "" then Except.error "URL is required"
    else
      let ls0 := c.labels.getD []
      let ls1 := if base.serviceName ≠ "" ∧ mapGet ls0 "service" = "" then
        mapSet ls0 "service" base.serviceName else ls0
      let ls2 := if base.environment ≠ "" ∧ mapGet ls1 "environment" = "" then
        mapSet ls1 "environment" base.environment else ls1
      let ls3 := if base.instanceID ≠ "" ∧ mapGet ls2 "instance" = "" then
        mapSet ls2 "instance" base.instanceID else ls2
      Except.ok
        { config := { c with config := some base, labels := some ls3 },
          state := { isHealthy := true, lastError := none } }

/-- C8: constructing a Loki sink from a non-nil configuration fails (with
an error and no sink) exactly when the destination URL is empty; with a
non-empty URL the construction always succeeds. -/
theorem c8_construction (c : LokiSinkConfig) :
    (∃ e, NewLokiSink (some c) = Except.error e) ↔ c.url = "" := by
  by_cases h : c.url = "" <;> simp [NewLokiSink, h]
